import Mathlib

/-!
# Draft turn/phase state machine

A shallow embedding of the draft state machine of `src/server.js`
(a two-player ban/pick draft server).  The embedded parts are the
session record created by the `draft:start` handler, the validation
and mutation logic of the `draft:ban` and `draft:pick` handlers, and
the phase/turn transition function `advanceDraftState`.

Item identifiers (the server's `characterId` values) and Discord ids
are modelled as natural numbers.  The JS phase strings `"ban1"`,
`"pick1"`, `"ban2"`, `"pick2"`, `"complete"` become the inductive
`Phase`; the check `phase.startsWith("ban")` becomes membership in
`{ban1, ban2}`, which is equivalent on the five phase values.
Timer and cosmetic configuration fields, which the transition logic
never reads, are omitted.
-/

namespace Draft

/-- The five draft phases, in their fixed order. -/
inductive Phase where
  | ban1
  | pick1
  | ban2
  | pick2
  | complete
deriving DecidableEq, Repr

/-- Position of a phase in the fixed order `ban1, pick1, ban2, pick2, complete`. -/
def phaseIdx : Phase → Nat
  | .ban1 => 0
  | .pick1 => 1
  | .ban2 => 2
  | .pick2 => 3
  | .complete => 4

/-- The phase label stored on a ban record (`"phase1"` / `"phase2"` in the source). -/
inductive PhaseLabel where
  | phase1
  | phase2
deriving DecidableEq, Repr

/-- A per-player counter pair, as in `{ player1: 0, player2: 0 }`. -/
structure PlayerPair where
  player1 : Nat
  player2 : Nat
deriving DecidableEq, Repr

/-- Read the counter of player `p` (the source indexes by the key `player${p}`,
and `p` is always 1 or 2). -/
def PlayerPair.get (c : PlayerPair) (p : Nat) : Nat :=
  if p = 1 then c.player1 else c.player2

/-- Increment the counter of player `p` (the source's `count[player${p}]++`). -/
def PlayerPair.inc (c : PlayerPair) (p : Nat) : PlayerPair :=
  if p = 1 then { c with player1 := c.player1 + 1 }
  else { c with player2 := c.player2 + 1 }

/-- One entry of `session.bans`. -/
structure BanRecord where
  characterId : Nat
  phase : PhaseLabel
  bannedBy : Nat
deriving DecidableEq, Repr

/-- One entry of `session.picks`. -/
structure PickRecord where
  characterId : Nat
  pickedBy : Nat
  order : Nat
deriving DecidableEq, Repr

/-- The draft session object (`currentDraftState` in the source).
`timerStartedAt` is informational only and omitted. -/
structure DraftState where
  phase : Phase
  currentPlayer : Nat
  bans : List BanRecord
  picks : List PickRecord
  player1Picks : List Nat
  player2Picks : List Nat
  currentPhase1BanCount : PlayerPair
  currentPhase2BanCount : PlayerPair
  currentPick1Count : PlayerPair
  currentPick2Count : PlayerPair
  balanceBansUsed : Nat
deriving DecidableEq, Repr

/-- The draft configuration fields read by the engine (`draftConfig`).
Cosmetic fields (game mode, timers) are omitted. -/
structure DraftConfig where
  bansPhase1 : Nat
  bansPhase2 : Nat
  balanceBans : Nat
  balanceBansPlayer : Nat
deriving DecidableEq, Repr

/-- The fresh session built by the `draft:start` handler. -/
def initialDraftState : DraftState where
  phase := .ban1
  currentPlayer := 1
  bans := []
  picks := []
  player1Picks := []
  player2Picks := []
  currentPhase1BanCount := ⟨0, 0⟩
  currentPhase2BanCount := ⟨0, 0⟩
  currentPick1Count := ⟨0, 0⟩
  currentPick2Count := ⟨0, 0⟩
  balanceBansUsed := 0

/-- The `case "ban1"` branch of `advanceDraftState`. -/
def advanceBan1 (cfg : DraftConfig) (s : DraftState) : DraftState :=
  let p1Bans := s.currentPhase1BanCount.player1
  let p2Bans := s.currentPhase1BanCount.player2
  let totalBansNeeded :=
    cfg.bansPhase1 + (if cfg.balanceBansPlayer = 1 then cfg.balanceBans else 0)
  let p1Done :=
    p1Bans ≥ (if cfg.balanceBansPlayer = 1 then totalBansNeeded else cfg.bansPhase1)
  let p2Done :=
    p2Bans ≥ (if cfg.balanceBansPlayer = 2 then cfg.bansPhase1 + cfg.balanceBans
              else cfg.bansPhase1)
  if p1Done ∧ p2Done then
    { s with phase := .pick1, currentPlayer := 1 }
  else
    let flipped := if s.currentPlayer = 1 then 2 else 1
    let next :=
      if flipped = 1 ∧
          p1Bans ≥ (if cfg.balanceBansPlayer = 1 then totalBansNeeded
                    else cfg.bansPhase1) then 2
      else if flipped = 2 ∧
          p2Bans ≥ (if cfg.balanceBansPlayer = 2 then cfg.bansPhase1 + cfg.balanceBans
                    else cfg.bansPhase1) then 1
      else flipped
    { s with currentPlayer := next }

/-- The `case "pick1"` branch of `advanceDraftState`: the hardcoded
1-2-2-1-1-2 table indexed by total picks so far. -/
def advancePick1 (s : DraftState) : DraftState :=
  let p1Picks := s.currentPick1Count.player1
  let p2Picks := s.currentPick1Count.player2
  if p1Picks ≥ 3 ∧ p2Picks ≥ 3 then
    { s with phase := .ban2, currentPlayer := 1 }
  else
    let totalPicks := p1Picks + p2Picks
    if totalPicks = 0 then { s with currentPlayer := 1 }
    else if totalPicks = 1 then { s with currentPlayer := 2 }
    else if totalPicks = 2 then { s with currentPlayer := 2 }
    else if totalPicks = 3 then { s with currentPlayer := 1 }
    else if totalPicks = 4 then { s with currentPlayer := 1 }
    else if totalPicks = 5 then { s with currentPlayer := 2 }
    else s

/-- The `case "ban2"` branch of `advanceDraftState`. -/
def advanceBan2 (cfg : DraftConfig) (s : DraftState) : DraftState :=
  let p1Bans := s.currentPhase2BanCount.player1
  let p2Bans := s.currentPhase2BanCount.player2
  if p1Bans ≥ cfg.bansPhase2 ∧ p2Bans ≥ cfg.bansPhase2 then
    { s with phase := .pick2, currentPlayer := 2 }
  else
    let flipped := if s.currentPlayer = 1 then 2 else 1
    let next :=
      if flipped = 1 ∧ s.currentPhase2BanCount.player1 ≥ cfg.bansPhase2 then 2
      else if flipped = 2 ∧ s.currentPhase2BanCount.player2 ≥ cfg.bansPhase2 then 1
      else flipped
    { s with currentPlayer := next }

/-- The `case "pick2"` branch of `advanceDraftState`: the mirrored
2-1-1-2-2-1 table.  The terminal transition sets only the phase. -/
def advancePick2 (s : DraftState) : DraftState :=
  let p1Picks := s.currentPick2Count.player1
  let p2Picks := s.currentPick2Count.player2
  if p1Picks ≥ 3 ∧ p2Picks ≥ 3 then
    { s with phase := .complete }
  else
    let totalPicks := p1Picks + p2Picks
    if totalPicks = 0 then { s with currentPlayer := 2 }
    else if totalPicks = 1 then { s with currentPlayer := 1 }
    else if totalPicks = 2 then { s with currentPlayer := 1 }
    else if totalPicks = 3 then { s with currentPlayer := 2 }
    else if totalPicks = 4 then { s with currentPlayer := 2 }
    else if totalPicks = 5 then { s with currentPlayer := 1 }
    else s

/-- The transition function `advanceDraftState`, dispatching on the current
phase; the `switch` has no case for `complete`, so that phase is unchanged. -/
def advanceDraftState (cfg : DraftConfig) (s : DraftState) : DraftState :=
  match s.phase with
  | .ban1 => advanceBan1 cfg s
  | .pick1 => advancePick1 s
  | .ban2 => advanceBan2 cfg s
  | .pick2 => advancePick2 s
  | .complete => s

/-- The validation errors the handlers can emit. -/
inductive DraftError where
  | NotAPlayer
  | NoActiveSession
  | NotYourTurn
  | WrongPhaseKind
  | ItemAlreadyBanned
  | ItemAlreadyPicked
deriving DecidableEq, Repr

/-- The duplicate check `bans.some(b => b.characterId === characterId)`. -/
def bansHasChar (bans : List BanRecord) (characterId : Nat) : Bool :=
  bans.any fun b => b.characterId = characterId

/-- The duplicate check `picks.some(p => p.characterId === characterId)`. -/
def picksHasChar (picks : List PickRecord) (characterId : Nat) : Bool :=
  picks.any fun p => p.characterId = characterId

/-- The two seated players of the single draft room, by Discord id
(`draftRoom.player1/player2`; only the `discordId` field matters here). -/
structure DraftRoom where
  player1 : Option Nat
  player2 : Option Nat
deriving DecidableEq, Repr

/-- The seat lookup `getPlayerNumber(discordId)`. -/
def getPlayerNumber (room : DraftRoom) (discordId : Nat) : Option Nat :=
  if room.player1 = some discordId then some 1
  else if room.player2 = some discordId then some 2
  else none

/-- The `draft:ban` handler, as a function of the seated-player lookup result
`pn` (`getPlayerNumber`'s output), the current session (`none` when no draft
is active) and the attempted item.  Each early `socket.emit("error", ...);
return` becomes an `Except.error`; the success path appends the ban record,
increments the matching counter and runs `advanceDraftState`. -/
def draftBan (cfg : DraftConfig) (pn : Option Nat) (st : Option DraftState)
    (characterId : Nat) : Except DraftError DraftState :=
  match pn with
  | none => .error .NotAPlayer
  | some playerNumber =>
    match st with
    | none => .error .NoActiveSession
    | some s =>
      if s.currentPlayer ≠ playerNumber then .error .NotYourTurn
      else if ¬ (s.phase = .ban1 ∨ s.phase = .ban2) then .error .WrongPhaseKind
      else if bansHasChar s.bans characterId then .error .ItemAlreadyBanned
      else
        let label := if s.phase = .ban1 then PhaseLabel.phase1 else PhaseLabel.phase2
        let s1 := { s with
          bans := s.bans ++ [(⟨characterId, label, playerNumber⟩ : BanRecord)] }
        let s2 :=
          if s.phase = .ban1 then
            { s1 with currentPhase1BanCount := s1.currentPhase1BanCount.inc playerNumber }
          else
            { s1 with currentPhase2BanCount := s1.currentPhase2BanCount.inc playerNumber }
        .ok (advanceDraftState cfg s2)

/-- The `draft:pick` handler, in the same style as `draftBan`. -/
def draftPick (cfg : DraftConfig) (pn : Option Nat) (st : Option DraftState)
    (characterId : Nat) : Except DraftError DraftState :=
  match pn with
  | none => .error .NotAPlayer
  | some playerNumber =>
    match st with
    | none => .error .NoActiveSession
    | some s =>
      if s.currentPlayer ≠ playerNumber then .error .NotYourTurn
      else if ¬ (s.phase = .pick1 ∨ s.phase = .pick2) then .error .WrongPhaseKind
      else if bansHasChar s.bans characterId then .error .ItemAlreadyBanned
      else if picksHasChar s.picks characterId then .error .ItemAlreadyPicked
      else
        let s1 := { s with
          picks := s.picks ++
            [(⟨characterId, playerNumber, s.picks.length + 1⟩ : PickRecord)] }
        let s2 :=
          if playerNumber = 1 then
            { s1 with player1Picks := s1.player1Picks ++ [characterId] }
          else
            { s1 with player2Picks := s1.player2Picks ++ [characterId] }
        let s3 :=
          if s.phase = .pick1 then
            { s2 with currentPick1Count := s2.currentPick1Count.inc playerNumber }
          else
            { s2 with currentPick2Count := s2.currentPick2Count.inc playerNumber }
        .ok (advanceDraftState cfg s3)

/-- The `draft:reset` handler sets the session to "no session". -/
def resetDraft : Option DraftState := none

/-- The effect of a `draft:ban` event on the global session: on success the
session is replaced by the handler's result, on a validation error it is left
as it was. -/
def applyBan (cfg : DraftConfig) (pn : Option Nat) (characterId : Nat)
    (st : Option DraftState) : Option DraftState :=
  match draftBan cfg pn st characterId with
  | .ok s => some s
  | .error _ => st

/-- The effect of a `draft:pick` event on the global session. -/
def applyPick (cfg : DraftConfig) (pn : Option Nat) (characterId : Nat)
    (st : Option DraftState) : Option DraftState :=
  match draftPick cfg pn st characterId with
  | .ok s => some s
  | .error _ => st

/-- Sessions reachable from a fresh `draft:start` by successful bans and
picks. -/
inductive Reaches (cfg : DraftConfig) : DraftState → Prop where
  | start : Reaches cfg initialDraftState
  | ban (p characterId : Nat) (s s' : DraftState) :
      Reaches cfg s → draftBan cfg (some p) (some s) characterId = .ok s' →
      Reaches cfg s'
  | pick (p characterId : Nat) (s s' : DraftState) :
      Reaches cfg s → draftPick cfg (some p) (some s) characterId = .ok s' →
      Reaches cfg s'

/-- Run one `draft:ban` event and keep the old session if it failed
(used to name intermediate states of concrete traces). -/
def stepBan (cfg : DraftConfig) (p characterId : Nat) (s : DraftState) : DraftState :=
  match draftBan cfg (some p) (some s) characterId with
  | .ok s' => s'
  | .error _ => s

/-- Run one `draft:pick` event and keep the old session if it failed. -/
def stepPick (cfg : DraftConfig) (p characterId : Nat) (s : DraftState) : DraftState :=
  match draftPick cfg (some p) (some s) characterId with
  | .ok s' => s'
  | .error _ => s

/-! ## Specification-side definitions

These follow the wording of the specification (not the source) and exist to
be compared with the source-derived transition function. -/

/-- Spec wording: `need(p)` is `bansPhase1 + balanceBans` when `p` is the
balance-ban player, else `bansPhase1`. -/
def specNeed (cfg : DraftConfig) (p : Nat) : Nat :=
  if cfg.balanceBansPlayer = p then cfg.bansPhase1 + cfg.balanceBans
  else cfg.bansPhase1

/-- Spec wording: flip the current player (1 and 2 swap). -/
def specFlip (p : Nat) : Nat := if p = 1 then 2 else 1

/-- Spec wording for a non-terminal phase-1 ban: flip the current player, and
if the flipped-to player has already met their phase-1 need, flip once more;
no further re-check. -/
def specBan1Turn (cfg : DraftConfig) (s : DraftState) : Nat :=
  let f := specFlip s.currentPlayer
  if specNeed cfg f ≤ s.currentPhase1BanCount.get f then specFlip f else f

/-- Spec wording for a non-terminal phase-2 ban: same flip-then-single-skip
logic, with need `bansPhase2` for both players. -/
def specBan2Turn (cfg : DraftConfig) (s : DraftState) : Nat :=
  let f := specFlip s.currentPlayer
  if cfg.bansPhase2 ≤ s.currentPhase2BanCount.get f then specFlip f else f

/-- Spec wording: the fixed phase-1 draft-order table, indexed by the total
number of picks so far (entries 0..5 give 1,2,2,1,1,2). -/
def specPick1Table : Nat → Nat
  | 0 => 1
  | 1 => 2
  | 2 => 2
  | 3 => 1
  | 4 => 1
  | _ => 2

/-- Spec wording: the mirrored phase-2 table (entries 0..5 give 2,1,1,2,2,1). -/
def specPick2Table : Nat → Nat
  | 0 => 2
  | 1 => 1
  | 2 => 1
  | 3 => 2
  | 4 => 2
  | _ => 1

/-! ## Helper lemmas about the transition function and the handlers -/

theorem advance_frame (cfg : DraftConfig) (s : DraftState) :
    (advanceDraftState cfg s).bans = s.bans ∧
    (advanceDraftState cfg s).picks = s.picks ∧
    (advanceDraftState cfg s).player1Picks = s.player1Picks ∧
    (advanceDraftState cfg s).player2Picks = s.player2Picks ∧
    (advanceDraftState cfg s).currentPhase1BanCount = s.currentPhase1BanCount ∧
    (advanceDraftState cfg s).currentPhase2BanCount = s.currentPhase2BanCount ∧
    (advanceDraftState cfg s).currentPick1Count = s.currentPick1Count ∧
    (advanceDraftState cfg s).currentPick2Count = s.currentPick2Count ∧
    (advanceDraftState cfg s).balanceBansUsed = s.balanceBansUsed := by
  obtain ⟨ph, cp, bans, picks, q1, q2, b1, b2, k1, k2, bb⟩ := s
  cases ph <;>
    simp only [advanceDraftState, advanceBan1, advancePick1, advanceBan2,
      advancePick2] <;>
    (try split_ifs) <;> simp

theorem advance_phase_step (cfg : DraftConfig) (s : DraftState) :
    (advanceDraftState cfg s).phase = s.phase ∨
    phaseIdx (advanceDraftState cfg s).phase = phaseIdx s.phase + 1 := by
  obtain ⟨ph, cp, bans, picks, q1, q2, b1, b2, k1, k2, bb⟩ := s
  cases ph <;>
    simp only [advanceDraftState, advanceBan1, advancePick1, advanceBan2,
      advancePick2] <;>
    (try split_ifs) <;> simp [phaseIdx]

theorem draftBan_ok (cfg : DraftConfig) (p characterId : Nat) (s s' : DraftState)
    (h : draftBan cfg (some p) (some s) characterId = .ok s') :
    s.currentPlayer = p ∧ (s.phase = .ban1 ∨ s.phase = .ban2) ∧
    bansHasChar s.bans characterId = false ∧
    s' = advanceDraftState cfg
      (if s.phase = .ban1 then
        { s with
          bans := s.bans ++ [(⟨characterId, .phase1, p⟩ : BanRecord)],
          currentPhase1BanCount := s.currentPhase1BanCount.inc p }
       else
        { s with
          bans := s.bans ++ [(⟨characterId, .phase2, p⟩ : BanRecord)],
          currentPhase2BanCount := s.currentPhase2BanCount.inc p }) := by
  simp only [draftBan] at h
  by_cases h1 : s.currentPlayer ≠ p
  · rw [if_pos h1] at h; exact absurd h (by simp)
  rw [if_neg h1] at h
  by_cases h2 : ¬ (s.phase = .ban1 ∨ s.phase = .ban2)
  · rw [if_pos h2] at h; exact absurd h (by simp)
  rw [if_neg h2] at h
  push_neg at h2
  by_cases h3 : bansHasChar s.bans characterId = true
  · rw [if_pos h3] at h; exact absurd h (by simp)
  rw [if_neg h3] at h
  push_neg at h1
  simp only [Except.ok.injEq] at h
  refine ⟨h1, h2, by simpa using h3, ?_⟩
  by_cases hb : s.phase = .ban1
  · simp only [if_pos hb] at h ⊢
    exact h.symm
  · simp only [if_neg hb] at h ⊢
    exact h.symm

theorem draftPick_ok (cfg : DraftConfig) (p characterId : Nat) (s s' : DraftState)
    (h : draftPick cfg (some p) (some s) characterId = .ok s') :
    s.currentPlayer = p ∧ (s.phase = .pick1 ∨ s.phase = .pick2) ∧
    bansHasChar s.bans characterId = false ∧
    picksHasChar s.picks characterId = false ∧
    s' = advanceDraftState cfg
      (if s.phase = .pick1 then
        (if p = 1 then
          { s with
            picks := s.picks ++
              [(⟨characterId, p, s.picks.length + 1⟩ : PickRecord)],
            player1Picks := s.player1Picks ++ [characterId],
            currentPick1Count := s.currentPick1Count.inc p }
         else
          { s with
            picks := s.picks ++
              [(⟨characterId, p, s.picks.length + 1⟩ : PickRecord)],
            player2Picks := s.player2Picks ++ [characterId],
            currentPick1Count := s.currentPick1Count.inc p })
       else
        (if p = 1 then
          { s with
            picks := s.picks ++
              [(⟨characterId, p, s.picks.length + 1⟩ : PickRecord)],
            player1Picks := s.player1Picks ++ [characterId],
            currentPick2Count := s.currentPick2Count.inc p }
         else
          { s with
            picks := s.picks ++
              [(⟨characterId, p, s.picks.length + 1⟩ : PickRecord)],
            player2Picks := s.player2Picks ++ [characterId],
            currentPick2Count := s.currentPick2Count.inc p })) := by
  simp only [draftPick] at h
  by_cases h1 : s.currentPlayer ≠ p
  · rw [if_pos h1] at h; exact absurd h (by simp)
  rw [if_neg h1] at h
  by_cases h2 : ¬ (s.phase = .pick1 ∨ s.phase = .pick2)
  · rw [if_pos h2] at h; exact absurd h (by simp)
  rw [if_neg h2] at h
  push_neg at h2
  by_cases h3 : bansHasChar s.bans characterId = true
  · rw [if_pos h3] at h; exact absurd h (by simp)
  rw [if_neg h3] at h
  by_cases h4 : picksHasChar s.picks characterId = true
  · rw [if_pos h4] at h; exact absurd h (by simp)
  rw [if_neg h4] at h
  push_neg at h1
  simp only [Except.ok.injEq] at h
  refine ⟨h1, h2, by simpa using h3, by simpa using h4, ?_⟩
  by_cases hf : s.phase = .pick1 <;> by_cases hp : p = 1
  · simp only [if_pos hf, if_pos hp] at h ⊢
    exact h.symm
  · simp only [if_pos hf, if_neg hp] at h ⊢
    exact h.symm
  · simp only [if_neg hf, if_pos hp] at h ⊢
    exact h.symm
  · simp only [if_neg hf, if_neg hp] at h ⊢
    exact h.symm

theorem advance_bans (cfg : DraftConfig) (s : DraftState) :
    (advanceDraftState cfg s).bans = s.bans := (advance_frame cfg s).1

theorem advance_picks (cfg : DraftConfig) (s : DraftState) :
    (advanceDraftState cfg s).picks = s.picks := (advance_frame cfg s).2.1

theorem advance_p1picks (cfg : DraftConfig) (s : DraftState) :
    (advanceDraftState cfg s).player1Picks = s.player1Picks :=
  (advance_frame cfg s).2.2.1

theorem advance_p2picks (cfg : DraftConfig) (s : DraftState) :
    (advanceDraftState cfg s).player2Picks = s.player2Picks :=
  (advance_frame cfg s).2.2.2.1

theorem advance_b1count (cfg : DraftConfig) (s : DraftState) :
    (advanceDraftState cfg s).currentPhase1BanCount = s.currentPhase1BanCount :=
  (advance_frame cfg s).2.2.2.2.1

theorem advance_b2count (cfg : DraftConfig) (s : DraftState) :
    (advanceDraftState cfg s).currentPhase2BanCount = s.currentPhase2BanCount :=
  (advance_frame cfg s).2.2.2.2.2.1

theorem advance_k1count (cfg : DraftConfig) (s : DraftState) :
    (advanceDraftState cfg s).currentPick1Count = s.currentPick1Count :=
  (advance_frame cfg s).2.2.2.2.2.2.1

theorem advance_k2count (cfg : DraftConfig) (s : DraftState) :
    (advanceDraftState cfg s).currentPick2Count = s.currentPick2Count :=
  (advance_frame cfg s).2.2.2.2.2.2.2.1

theorem advance_bbu (cfg : DraftConfig) (s : DraftState) :
    (advanceDraftState cfg s).balanceBansUsed = s.balanceBansUsed :=
  (advance_frame cfg s).2.2.2.2.2.2.2.2

/-- The item ids of the bans sequence. -/
def banIds (s : DraftState) : List Nat := s.bans.map BanRecord.characterId

/-- The item ids of the picks sequence. -/
def pickIds (s : DraftState) : List Nat := s.picks.map PickRecord.characterId

/-- Neither the bans nor the picks sequence repeats an item id. -/
def InvIds (s : DraftState) : Prop := (banIds s).Nodup ∧ (pickIds s).Nodup

theorem bansHasChar_eq_false {bans : List BanRecord} {i : Nat}
    (h : bansHasChar bans i = false) : i ∉ bans.map BanRecord.characterId := by
  intro hmem
  obtain ⟨b, hb, hbi⟩ := List.mem_map.mp hmem
  exact (List.any_eq_false.mp h) b hb (by simp [hbi])

theorem picksHasChar_eq_false {picks : List PickRecord} {i : Nat}
    (h : picksHasChar picks i = false) : i ∉ picks.map PickRecord.characterId := by
  intro hmem
  obtain ⟨b, hb, hbi⟩ := List.mem_map.mp hmem
  exact (List.any_eq_false.mp h) b hb (by simp [hbi])

theorem nodup_append_singleton {l : List Nat} {a : Nat}
    (h : l.Nodup) (ha : a ∉ l) : (l ++ [a]).Nodup := by
  simp [List.nodup_append, h, List.disjoint_singleton, ha]

theorem invIds_ban (cfg : DraftConfig) (p i : Nat) (s s' : DraftState)
    (h : draftBan cfg (some p) (some s) i = .ok s') (hI : InvIds s) : InvIds s' := by
  obtain ⟨hcp, hph, hchar, rfl⟩ := draftBan_ok cfg p i s s' h
  by_cases hb1 : s.phase = .ban1
  · rw [if_pos hb1]
    refine ⟨?_, ?_⟩
    · simp only [banIds, advance_bans, List.map_append, List.map_cons, List.map_nil]
      exact nodup_append_singleton hI.1 (bansHasChar_eq_false hchar)
    · simp only [pickIds, advance_picks]
      exact hI.2
  · rw [if_neg hb1]
    refine ⟨?_, ?_⟩
    · simp only [banIds, advance_bans, List.map_append, List.map_cons, List.map_nil]
      exact nodup_append_singleton hI.1 (bansHasChar_eq_false hchar)
    · simp only [pickIds, advance_picks]
      exact hI.2

theorem invIds_pick (cfg : DraftConfig) (p i : Nat) (s s' : DraftState)
    (h : draftPick cfg (some p) (some s) i = .ok s') (hI : InvIds s) : InvIds s' := by
  obtain ⟨hcp, hph, hcb, hcpk, rfl⟩ := draftPick_ok cfg p i s s' h
  have hni := picksHasChar_eq_false hcpk
  by_cases hf : s.phase = .pick1 <;> by_cases hp1 : p = 1
  · rw [if_pos hf, if_pos hp1]
    refine ⟨?_, ?_⟩
    · simp only [banIds, advance_bans]
      exact hI.1
    · simp only [pickIds, advance_picks, List.map_append, List.map_cons, List.map_nil]
      exact nodup_append_singleton hI.2 hni
  · rw [if_pos hf, if_neg hp1]
    refine ⟨?_, ?_⟩
    · simp only [banIds, advance_bans]
      exact hI.1
    · simp only [pickIds, advance_picks, List.map_append, List.map_cons, List.map_nil]
      exact nodup_append_singleton hI.2 hni
  · rw [if_neg hf, if_pos hp1]
    refine ⟨?_, ?_⟩
    · simp only [banIds, advance_bans]
      exact hI.1
    · simp only [pickIds, advance_picks, List.map_append, List.map_cons, List.map_nil]
      exact nodup_append_singleton hI.2 hni
  · rw [if_neg hf, if_neg hp1]
    refine ⟨?_, ?_⟩
    · simp only [banIds, advance_bans]
      exact hI.1
    · simp only [pickIds, advance_picks, List.map_append, List.map_cons, List.map_nil]
      exact nodup_append_singleton hI.2 hni

theorem reaches_invIds (cfg : DraftConfig) (s : DraftState)
    (h : Reaches cfg s) : InvIds s := by
  induction h with
  | start =>
      exact ⟨by simp [banIds, initialDraftState], by simp [pickIds, initialDraftState]⟩
  | ban p i s s' _ hstep ih => exact invIds_ban cfg p i s s' hstep ih
  | pick p i s s' _ hstep ih => exact invIds_pick cfg p i s s' hstep ih

/-- The (phase-1 pick count, phase-2... ) triples
`(p1Count, p2Count, currentPlayer)` that occur during phase `pick1`. -/
def pickTriples1 : List (Nat × Nat × Nat) :=
  [(0, 0, 1), (1, 0, 2), (1, 1, 2), (1, 2, 1), (2, 2, 1), (3, 2, 2)]

/-- The `(p1Count, p2Count, currentPlayer)` triples that occur during `pick2`. -/
def pickTriples2 : List (Nat × Nat × Nat) :=
  [(0, 0, 2), (0, 1, 1), (1, 1, 1), (2, 1, 2), (2, 2, 2), (2, 3, 1)]

/-- Invariant on the pick counters: zero before their phase, on the forced
trajectory during their phase, and at most 3 afterwards. -/
def InvPick (s : DraftState) : Prop :=
  match s.phase with
  | .ban1 => s.currentPick1Count = ⟨0, 0⟩ ∧ s.currentPick2Count = ⟨0, 0⟩
  | .pick1 =>
      (s.currentPick1Count.player1, s.currentPick1Count.player2, s.currentPlayer)
        ∈ pickTriples1 ∧
      s.currentPick2Count = ⟨0, 0⟩
  | .ban2 =>
      s.currentPick1Count.player1 ≤ 3 ∧ s.currentPick1Count.player2 ≤ 3 ∧
      s.currentPick2Count = ⟨0, 0⟩
  | .pick2 =>
      s.currentPick1Count.player1 ≤ 3 ∧ s.currentPick1Count.player2 ≤ 3 ∧
      (s.currentPick2Count.player1, s.currentPick2Count.player2, s.currentPlayer)
        ∈ pickTriples2
  | .complete =>
      s.currentPick1Count.player1 ≤ 3 ∧ s.currentPick1Count.player2 ≤ 3 ∧
      s.currentPick2Count.player1 ≤ 3 ∧ s.currentPick2Count.player2 ≤ 3

theorem invPick_ban (cfg : DraftConfig) (p i : Nat) (s s' : DraftState)
    (h : draftBan cfg (some p) (some s) i = .ok s') (hI : InvPick s) : InvPick s' := by
  obtain ⟨hcp, hph, hchar, rfl⟩ := draftBan_ok cfg p i s s' h
  obtain ⟨ph, cp, bans, picks, q1, q2, b1, b2, k1, k2, bb⟩ := s
  rcases hph with hb | hb <;> simp only at hb <;> subst hb
  · simp only [InvPick] at hI
    obtain ⟨hk1, hk2⟩ := hI
    subst hk1; subst hk2
    rw [if_pos rfl]
    simp only [advanceDraftState, advanceBan1]
    split_ifs <;> simp [InvPick, pickTriples1]
  · simp only [InvPick] at hI
    obtain ⟨hk1a, hk1b, hk2⟩ := hI
    subst hk2
    rw [if_neg (by simp)]
    simp only [advanceDraftState, advanceBan2]
    split_ifs <;>
      simp [InvPick, pickTriples2] <;> omega

theorem invPick_pick (cfg : DraftConfig) (p i : Nat) (s s' : DraftState)
    (h : draftPick cfg (some p) (some s) i = .ok s') (hI : InvPick s) : InvPick s' := by
  obtain ⟨hcp, hph, hcb, hcpk, rfl⟩ := draftPick_ok cfg p i s s' h
  obtain ⟨ph, cp, bans, picks, q1, q2, q1p, q2p, k1, k2, bb⟩ := s
  simp only at hcp
  subst hcp
  obtain ⟨a, b⟩ := k1
  obtain ⟨c, d⟩ := k2
  rcases hph with hb | hb <;> simp only at hb <;> subst hb
  · simp only [InvPick] at hI
    obtain ⟨hm, hk2⟩ := hI
    rw [hk2]
    rw [if_pos rfl]
    simp only [pickTriples1, List.mem_cons, List.not_mem_nil, or_false,
      Prod.mk.injEq] at hm
    rcases hm with ⟨h1, h2, h3⟩ | ⟨h1, h2, h3⟩ | ⟨h1, h2, h3⟩ | ⟨h1, h2, h3⟩ |
      ⟨h1, h2, h3⟩ | ⟨h1, h2, h3⟩ <;>
      subst h1 <;> subst h2 <;> subst h3 <;>
      simp [InvPick, advanceDraftState, advancePick1, PlayerPair.inc,
        pickTriples1, pickTriples2]
  · simp only [InvPick] at hI
    obtain ⟨ha, hb', hm⟩ := hI
    rw [if_neg (by simp)]
    simp only [pickTriples2, List.mem_cons, List.not_mem_nil, or_false,
      Prod.mk.injEq] at hm
    rcases hm with ⟨h1, h2, h3⟩ | ⟨h1, h2, h3⟩ | ⟨h1, h2, h3⟩ | ⟨h1, h2, h3⟩ |
      ⟨h1, h2, h3⟩ | ⟨h1, h2, h3⟩ <;>
      subst h1 <;> subst h2 <;> subst h3 <;>
      simp [InvPick, advanceDraftState, advancePick2, PlayerPair.inc,
        pickTriples1, pickTriples2] <;> omega

theorem reaches_invPick (cfg : DraftConfig) (s : DraftState)
    (h : Reaches cfg s) : InvPick s := by
  induction h with
  | start => exact ⟨rfl, rfl⟩
  | ban p i s s' _ hstep ih => exact invPick_ban cfg p i s s' hstep ih
  | pick p i s s' _ hstep ih => exact invPick_pick cfg p i s s' hstep ih

/-! ## Spec-level characterization of the four transition branches -/

theorem advanceBan1_spec (cfg : DraftConfig) (s : DraftState) (h : s.phase = .ban1) :
    advanceDraftState cfg s =
      if specNeed cfg 1 ≤ s.currentPhase1BanCount.player1 ∧
         specNeed cfg 2 ≤ s.currentPhase1BanCount.player2 then
        { s with phase := .pick1, currentPlayer := 1 }
      else
        { s with currentPlayer := specBan1Turn cfg s } := by
  obtain ⟨ph, cp, bans, picks, q1, q2, b1, b2, k1, k2, bb⟩ := s
  simp only at h
  subst h
  simp only [advanceDraftState, advanceBan1, specNeed, specBan1Turn, specFlip,
    PlayerPair.get]
  split_ifs <;> first | rfl | omega

theorem advanceBan2_spec (cfg : DraftConfig) (s : DraftState) (h : s.phase = .ban2) :
    advanceDraftState cfg s =
      if cfg.bansPhase2 ≤ s.currentPhase2BanCount.player1 ∧
         cfg.bansPhase2 ≤ s.currentPhase2BanCount.player2 then
        { s with phase := .pick2, currentPlayer := 2 }
      else
        { s with currentPlayer := specBan2Turn cfg s } := by
  obtain ⟨ph, cp, bans, picks, q1, q2, b1, b2, k1, k2, bb⟩ := s
  simp only at h
  subst h
  simp only [advanceDraftState, advanceBan2, specBan2Turn, specFlip, PlayerPair.get]
  split_ifs <;> first | rfl | omega

theorem advancePick1_spec (cfg : DraftConfig) (s : DraftState) (h : s.phase = .pick1) :
    advanceDraftState cfg s =
      if 3 ≤ s.currentPick1Count.player1 ∧ 3 ≤ s.currentPick1Count.player2 then
        { s with phase := .ban2, currentPlayer := 1 }
      else if s.currentPick1Count.player1 + s.currentPick1Count.player2 ≤ 5 then
        { s with currentPlayer :=
            specPick1Table (s.currentPick1Count.player1 + s.currentPick1Count.player2) }
      else s := by
  obtain ⟨ph, cp, bans, picks, q1, q2, b1, b2, k1, k2, bb⟩ := s
  simp only at h
  subst h
  obtain ⟨a, b⟩ := k1
  by_cases hd : 3 ≤ a ∧ 3 ≤ b
  · rw [if_pos hd]
    simp only [advanceDraftState, advancePick1]
    rw [if_pos (show a ≥ 3 ∧ b ≥ 3 from hd)]
  · rw [if_neg hd]
    rcases Nat.lt_or_ge (a + b) 6 with hlt | hge
    · rw [if_pos (show a + b ≤ 5 by omega)]
      simp only [advanceDraftState, advancePick1]
      rw [if_neg (show ¬ (a ≥ 3 ∧ b ≥ 3) from hd)]
      obtain ⟨t, ht⟩ : ∃ t, a + b = t := ⟨a + b, rfl⟩
      have ht5 : t ≤ 5 := by omega
      rw [ht]
      interval_cases t <;> simp [specPick1Table]
    · rw [if_neg (show ¬ (a + b ≤ 5) by omega)]
      simp only [advanceDraftState, advancePick1]
      rw [if_neg (show ¬ (a ≥ 3 ∧ b ≥ 3) from hd), if_neg (show ¬ (a + b = 0) by omega),
        if_neg (show ¬ (a + b = 1) by omega), if_neg (show ¬ (a + b = 2) by omega),
        if_neg (show ¬ (a + b = 3) by omega), if_neg (show ¬ (a + b = 4) by omega),
        if_neg (show ¬ (a + b = 5) by omega)]

theorem advancePick2_spec (cfg : DraftConfig) (s : DraftState) (h : s.phase = .pick2) :
    advanceDraftState cfg s =
      if 3 ≤ s.currentPick2Count.player1 ∧ 3 ≤ s.currentPick2Count.player2 then
        { s with phase := .complete }
      else if s.currentPick2Count.player1 + s.currentPick2Count.player2 ≤ 5 then
        { s with currentPlayer :=
            specPick2Table (s.currentPick2Count.player1 + s.currentPick2Count.player2) }
      else s := by
  obtain ⟨ph, cp, bans, picks, q1, q2, b1, b2, k1, k2, bb⟩ := s
  simp only at h
  subst h
  obtain ⟨a, b⟩ := k2
  by_cases hd : 3 ≤ a ∧ 3 ≤ b
  · rw [if_pos hd]
    simp only [advanceDraftState, advancePick2]
    rw [if_pos (show a ≥ 3 ∧ b ≥ 3 from hd)]
  · rw [if_neg hd]
    rcases Nat.lt_or_ge (a + b) 6 with hlt | hge
    · rw [if_pos (show a + b ≤ 5 by omega)]
      simp only [advanceDraftState, advancePick2]
      rw [if_neg (show ¬ (a ≥ 3 ∧ b ≥ 3) from hd)]
      obtain ⟨t, ht⟩ : ∃ t, a + b = t := ⟨a + b, rfl⟩
      have ht5 : t ≤ 5 := by omega
      rw [ht]
      interval_cases t <;> simp [specPick2Table]
    · rw [if_neg (show ¬ (a + b ≤ 5) by omega)]
      simp only [advanceDraftState, advancePick2]
      rw [if_neg (show ¬ (a ≥ 3 ∧ b ≥ 3) from hd), if_neg (show ¬ (a + b = 0) by omega),
        if_neg (show ¬ (a + b = 1) by omega), if_neg (show ¬ (a + b = 2) by omega),
        if_neg (show ¬ (a + b = 3) by omega), if_neg (show ¬ (a + b = 4) by omega),
        if_neg (show ¬ (a + b = 5) by omega)]

/-- Invariant on the ban counters: bounded by the per-player need, and during
a ban phase the player to act has not yet met their need. -/
def InvBan (cfg : DraftConfig) (s : DraftState) : Prop :=
  match s.phase with
  | .ban1 =>
      s.currentPhase1BanCount.player1 ≤ specNeed cfg 1 ∧
      s.currentPhase1BanCount.player2 ≤ specNeed cfg 2 ∧
      ((s.currentPlayer = 1 ∧ s.currentPhase1BanCount.player1 < specNeed cfg 1) ∨
       (s.currentPlayer = 2 ∧ s.currentPhase1BanCount.player2 < specNeed cfg 2)) ∧
      s.currentPhase2BanCount = ⟨0, 0⟩
  | .pick1 =>
      s.currentPhase1BanCount.player1 ≤ specNeed cfg 1 ∧
      s.currentPhase1BanCount.player2 ≤ specNeed cfg 2 ∧
      s.currentPhase2BanCount = ⟨0, 0⟩
  | .ban2 =>
      s.currentPhase1BanCount.player1 ≤ specNeed cfg 1 ∧
      s.currentPhase1BanCount.player2 ≤ specNeed cfg 2 ∧
      s.currentPhase2BanCount.player1 ≤ cfg.bansPhase2 ∧
      s.currentPhase2BanCount.player2 ≤ cfg.bansPhase2 ∧
      ((s.currentPlayer = 1 ∧ s.currentPhase2BanCount.player1 < cfg.bansPhase2) ∨
       (s.currentPlayer = 2 ∧ s.currentPhase2BanCount.player2 < cfg.bansPhase2))
  | .pick2 =>
      s.currentPhase1BanCount.player1 ≤ specNeed cfg 1 ∧
      s.currentPhase1BanCount.player2 ≤ specNeed cfg 2 ∧
      s.currentPhase2BanCount.player1 ≤ cfg.bansPhase2 ∧
      s.currentPhase2BanCount.player2 ≤ cfg.bansPhase2
  | .complete =>
      s.currentPhase1BanCount.player1 ≤ specNeed cfg 1 ∧
      s.currentPhase1BanCount.player2 ≤ specNeed cfg 2 ∧
      s.currentPhase2BanCount.player1 ≤ cfg.bansPhase2 ∧
      s.currentPhase2BanCount.player2 ≤ cfg.bansPhase2

theorem invBan_ban (cfg : DraftConfig) (p i : Nat) (s s' : DraftState)
    (h : draftBan cfg (some p) (some s) i = .ok s') (hI : InvBan cfg s) :
    InvBan cfg s' := by
  obtain ⟨hcp, hph, hchar, rfl⟩ := draftBan_ok cfg p i s s' h
  obtain ⟨ph, cp, bans, picks, q1, q2, b1, b2, k1, k2, bb⟩ := s
  simp only at hcp
  subst hcp
  obtain ⟨e, f⟩ := b1
  obtain ⟨g, g'⟩ := b2
  rcases hph with hb | hb <;> simp only at hb <;> subst hb
  · simp only [InvBan] at hI
    obtain ⟨h1, h2, hdisj, hb2eq⟩ := hI
    simp only [PlayerPair.mk.injEq] at hb2eq
    obtain ⟨rfl, rfl⟩ := hb2eq
    rw [if_pos rfl]
    rcases hdisj with ⟨rfl, hlt⟩ | ⟨rfl, hlt⟩ <;>
      rw [advanceBan1_spec cfg _ rfl] <;>
      simp [specBan1Turn, specFlip, PlayerPair.get, PlayerPair.inc] <;>
      split_ifs with hdone hskip <;>
      simp [InvBan] <;>
      omega
  · simp only [InvBan] at hI
    obtain ⟨h1, h2, h3, h4, hdisj⟩ := hI
    rw [if_neg (by simp)]
    rcases hdisj with ⟨rfl, hlt⟩ | ⟨rfl, hlt⟩ <;>
      rw [advanceBan2_spec cfg _ rfl] <;>
      simp [specBan2Turn, specFlip, PlayerPair.get, PlayerPair.inc] <;>
      split_ifs with hdone hskip <;>
      simp [InvBan] <;>
      omega
theorem invBan_pick (cfg : DraftConfig) (hb2 : 1 ≤ cfg.bansPhase2)
    (p i : Nat) (s s' : DraftState)
    (h : draftPick cfg (some p) (some s) i = .ok s') (hI : InvBan cfg s) :
    InvBan cfg s' := by
  obtain ⟨hcp, hph, hcb, hcpk, rfl⟩ := draftPick_ok cfg p i s s' h
  obtain ⟨ph, cp, bans, picks, q1, q2, q1p, q2p, k1, k2, bb⟩ := s
  simp only at hcp
  subst hcp
  rcases hph with hb | hb <;> simp only at hb <;> subst hb
  · simp only [InvBan] at hI
    obtain ⟨h1, h2, hb2eq⟩ := hI
    subst hb2eq
    rw [if_pos rfl]
    by_cases hp1 : cp = 1 <;>
      [rw [if_pos hp1]; rw [if_neg hp1]] <;>
      rw [advancePick1_spec cfg _ rfl] <;>
      split_ifs <;>
      simp [InvBan] <;>
      omega
  · simp only [InvBan] at hI
    obtain ⟨h1, h2, h3, h4⟩ := hI
    rw [if_neg (by simp)]
    by_cases hp1 : cp = 1 <;>
      [rw [if_pos hp1]; rw [if_neg hp1]] <;>
      rw [advancePick2_spec cfg _ rfl] <;>
      split_ifs <;>
      simp [InvBan] <;>
      omega

theorem reaches_invBan (cfg : DraftConfig) (hb1 : 1 ≤ cfg.bansPhase1)
    (hb2 : 1 ≤ cfg.bansPhase2) (s : DraftState)
    (h : Reaches cfg s) : InvBan cfg s := by
  induction h with
  | start =>
      have hn : 1 ≤ specNeed cfg 1 := by
        simp only [specNeed]
        split_ifs <;> omega
      simp only [InvBan, initialDraftState]
      exact ⟨by omega, by omega, Or.inl ⟨trivial, by omega⟩, trivial⟩
  | ban p i s s' _ hstep ih => exact invBan_ban cfg p i s s' hstep ih
  | pick p i s s' _ hstep ih => exact invBan_pick cfg hb2 p i s s' hstep ih
/-! ## Frame and counter-step lemmas for the handlers -/

theorem draftBan_frame (cfg : DraftConfig) (p i : Nat) (s s' : DraftState)
    (h : draftBan cfg (some p) (some s) i = .ok s') :
    s'.picks = s.picks ∧ s'.player1Picks = s.player1Picks ∧
    s'.player2Picks = s.player2Picks ∧
    s'.currentPick1Count = s.currentPick1Count ∧
    s'.currentPick2Count = s.currentPick2Count ∧
    s'.balanceBansUsed = s.balanceBansUsed := by
  obtain ⟨hcp, hph, hchar, rfl⟩ := draftBan_ok cfg p i s s' h
  by_cases hb1 : s.phase = .ban1 <;>
    [rw [if_pos hb1]; rw [if_neg hb1]] <;>
    exact ⟨advance_picks cfg _, advance_p1picks cfg _, advance_p2picks cfg _,
      advance_k1count cfg _, advance_k2count cfg _, advance_bbu cfg _⟩

theorem draftPick_frame (cfg : DraftConfig) (p i : Nat) (s s' : DraftState)
    (h : draftPick cfg (some p) (some s) i = .ok s') :
    s'.bans = s.bans ∧
    s'.currentPhase1BanCount = s.currentPhase1BanCount ∧
    s'.currentPhase2BanCount = s.currentPhase2BanCount ∧
    s'.balanceBansUsed = s.balanceBansUsed := by
  obtain ⟨hcp, hph, hcb, hcpk, rfl⟩ := draftPick_ok cfg p i s s' h
  by_cases hf : s.phase = .pick1 <;> by_cases hp1 : p = 1
  · rw [if_pos hf, if_pos hp1]
    exact ⟨advance_bans cfg _, advance_b1count cfg _, advance_b2count cfg _,
      advance_bbu cfg _⟩
  · rw [if_pos hf, if_neg hp1]
    exact ⟨advance_bans cfg _, advance_b1count cfg _, advance_b2count cfg _,
      advance_bbu cfg _⟩
  · rw [if_neg hf, if_pos hp1]
    exact ⟨advance_bans cfg _, advance_b1count cfg _, advance_b2count cfg _,
      advance_bbu cfg _⟩
  · rw [if_neg hf, if_neg hp1]
    exact ⟨advance_bans cfg _, advance_b1count cfg _, advance_b2count cfg _,
      advance_bbu cfg _⟩

theorem draftBan_counters (cfg : DraftConfig) (p i : Nat) (s s' : DraftState)
    (h : draftBan cfg (some p) (some s) i = .ok s') :
    (s.phase = .ban1 →
      s'.currentPhase1BanCount = s.currentPhase1BanCount.inc p ∧
      s'.currentPhase2BanCount = s.currentPhase2BanCount) ∧
    (s.phase = .ban2 →
      s'.currentPhase2BanCount = s.currentPhase2BanCount.inc p ∧
      s'.currentPhase1BanCount = s.currentPhase1BanCount) := by
  obtain ⟨hcp, hph, hchar, rfl⟩ := draftBan_ok cfg p i s s' h
  constructor
  · intro hb1
    rw [if_pos hb1]
    exact ⟨advance_b1count cfg _, advance_b2count cfg _⟩
  · intro hb2
    rw [if_neg (by simp [hb2])]
    exact ⟨advance_b2count cfg _, advance_b1count cfg _⟩

theorem draftPick_counters (cfg : DraftConfig) (p i : Nat) (s s' : DraftState)
    (h : draftPick cfg (some p) (some s) i = .ok s') :
    (s.phase = .pick1 →
      s'.currentPick1Count = s.currentPick1Count.inc p ∧
      s'.currentPick2Count = s.currentPick2Count) ∧
    (s.phase = .pick2 →
      s'.currentPick2Count = s.currentPick2Count.inc p ∧
      s'.currentPick1Count = s.currentPick1Count) := by
  obtain ⟨hcp, hph, hcb, hcpk, rfl⟩ := draftPick_ok cfg p i s s' h
  constructor
  · intro hf
    rw [if_pos hf]
    by_cases hp1 : p = 1 <;> [rw [if_pos hp1]; rw [if_neg hp1]] <;>
      exact ⟨advance_k1count cfg _, advance_k2count cfg _⟩
  · intro hf
    rw [if_neg (by simp [hf])]
    by_cases hp1 : p = 1 <;> [rw [if_pos hp1]; rw [if_neg hp1]] <;>
      exact ⟨advance_k2count cfg _, advance_k1count cfg _⟩

theorem reaches_balanceBansUsed (cfg : DraftConfig) (s : DraftState)
    (h : Reaches cfg s) : s.balanceBansUsed = 0 := by
  induction h with
  | start => rfl
  | ban p i s s' _ hstep ih =>
      rw [(draftBan_frame cfg p i s s' hstep).2.2.2.2.2]
      exact ih
  | pick p i s s' _ hstep ih =>
      rw [(draftPick_frame cfg p i s s' hstep).2.2.2]
      exact ih

/-! ## Bound extraction from the invariants -/

theorem invBan_bounds (cfg : DraftConfig) (s : DraftState) (hI : InvBan cfg s) :
    s.currentPhase1BanCount.player1 ≤ specNeed cfg 1 ∧
    s.currentPhase1BanCount.player2 ≤ specNeed cfg 2 ∧
    s.currentPhase2BanCount.player1 ≤ cfg.bansPhase2 ∧
    s.currentPhase2BanCount.player2 ≤ cfg.bansPhase2 := by
  unfold InvBan at hI
  split at hI
  · obtain ⟨h1, h2, -, hb2⟩ := hI
    exact ⟨h1, h2, by simp [hb2], by simp [hb2]⟩
  · obtain ⟨h1, h2, hb2⟩ := hI
    exact ⟨h1, h2, by simp [hb2], by simp [hb2]⟩
  · obtain ⟨h1, h2, h3, h4, -⟩ := hI
    exact ⟨h1, h2, h3, h4⟩
  · exact hI
  · exact hI

theorem triple1_bounds (t : Nat × Nat × Nat) (h : t ∈ pickTriples1) :
    t.1 ≤ 3 ∧ t.2.1 ≤ 3 := by
  fin_cases h <;> simp

theorem triple2_bounds (t : Nat × Nat × Nat) (h : t ∈ pickTriples2) :
    t.1 ≤ 3 ∧ t.2.1 ≤ 3 := by
  fin_cases h <;> simp

theorem invPick_bounds (s : DraftState) (hI : InvPick s) :
    s.currentPick1Count.player1 ≤ 3 ∧ s.currentPick1Count.player2 ≤ 3 ∧
    s.currentPick2Count.player1 ≤ 3 ∧ s.currentPick2Count.player2 ≤ 3 := by
  unfold InvPick at hI
  split at hI
  · obtain ⟨hk1, hk2⟩ := hI
    exact ⟨by simp [hk1], by simp [hk1], by simp [hk2], by simp [hk2]⟩
  · obtain ⟨hm, hk2⟩ := hI
    obtain ⟨hm1, hm2⟩ := triple1_bounds _ hm
    exact ⟨hm1, hm2, by simp [hk2], by simp [hk2]⟩
  · obtain ⟨h1, h2, hk2⟩ := hI
    exact ⟨h1, h2, by simp [hk2], by simp [hk2]⟩
  · obtain ⟨h1, h2, hm⟩ := hI
    obtain ⟨hm1, hm2⟩ := triple2_bounds _ hm
    exact ⟨h1, h2, hm1, hm2⟩
  · exact hI
/-! ## Concrete configurations and traces -/

/-- bansPhase1 = 1, bansPhase2 = 1, balanceBans = 1 for player 1. -/
def cfgC1 : DraftConfig := ⟨1, 1, 1, 1⟩

/-- bansPhase1 = 1, bansPhase2 = 1, no balance bans. -/
def cfgStd : DraftConfig := ⟨1, 1, 0, 1⟩

/-- A configuration with zero ban quotas everywhere. -/
def cfgZero : DraftConfig := ⟨0, 0, 0, 1⟩

def c1s1 : DraftState := stepBan cfgC1 1 10 initialDraftState
def c1s2 : DraftState := stepBan cfgC1 2 11 c1s1
def c1s3 : DraftState := stepBan cfgC1 1 12 c1s2

/-- A session at the start of phase `pick1` (as the engine produces it:
current player 1, all pick counters zero). -/
def pick1Entry : DraftState := { initialDraftState with phase := .pick1 }

def c2s1 : DraftState := stepPick cfgStd 1 1 pick1Entry
def c2s2 : DraftState := stepPick cfgStd 2 2 c2s1
def c2s3 : DraftState := stepPick cfgStd 2 3 c2s2
def c2s4 : DraftState := stepPick cfgStd 1 4 c2s3
def c2s5 : DraftState := stepPick cfgStd 1 5 c2s4
def c2s6 : DraftState := stepPick cfgStd 2 6 c2s5

/-- A session at the start of phase `ban2` (current player 1). -/
def ban2Entry : DraftState := { initialDraftState with phase := .ban2 }

/-- A session at the start of phase `pick2` (as the engine produces it:
current player 2). -/
def pick2Entry : DraftState := { initialDraftState with phase := .pick2, currentPlayer := 2 }

def c4s1 : DraftState := stepPick cfgStd 2 1 pick2Entry
def c4s2 : DraftState := stepPick cfgStd 1 2 c4s1
def c4s3 : DraftState := stepPick cfgStd 1 3 c4s2
def c4s4 : DraftState := stepPick cfgStd 2 4 c4s3
def c4s5 : DraftState := stepPick cfgStd 2 5 c4s4
def c4s6 : DraftState := stepPick cfgStd 1 6 c4s5

/-- The ban of a quota-0 configuration that overruns the quota (for C5). -/
def c5s1 : DraftState := stepBan cfgZero 1 7 initialDraftState

/-- A full draft under `cfgStd` in which item 1 is picked in `pick1` and then
banned again in `ban2` (for C6). -/
def c6s1 : DraftState := stepBan cfgStd 1 100 initialDraftState
def c6s2 : DraftState := stepBan cfgStd 2 101 c6s1
def c6s3 : DraftState := stepPick cfgStd 1 1 c6s2
def c6s4 : DraftState := stepPick cfgStd 2 2 c6s3
def c6s5 : DraftState := stepPick cfgStd 2 3 c6s4
def c6s6 : DraftState := stepPick cfgStd 1 4 c6s5
def c6s7 : DraftState := stepPick cfgStd 1 5 c6s6
def c6s8 : DraftState := stepPick cfgStd 2 6 c6s7
def c6s9 : DraftState := stepBan cfgStd 1 1 c6s8

theorem c6s9_reachable : Reaches cfgStd c6s9 :=
  Reaches.ban 1 1 c6s8 c6s9
    (Reaches.pick 2 6 c6s7 c6s8
      (Reaches.pick 1 5 c6s6 c6s7
        (Reaches.pick 1 4 c6s5 c6s6
          (Reaches.pick 2 3 c6s4 c6s5
            (Reaches.pick 2 2 c6s3 c6s4
              (Reaches.pick 1 1 c6s2 c6s3
                (Reaches.ban 2 101 c6s1 c6s2
                  (Reaches.ban 1 100 initialDraftState c6s1 Reaches.start rfl)
                  rfl)
                rfl)
              rfl)
            rfl)
          rfl)
        rfl)
      rfl)
    rfl

/-! ## The claims -/

/-- C1: in phase `ban1`, after every successful ban, with
`need(p) = bansPhase1 + balanceBans` for the balance-ban player and
`bansPhase1` otherwise: if both players have reached their need the session
advances to `pick1` with current player 1; otherwise the turn flips, and if
the flipped-to player is already done it flips once more, with no further
re-check.  In particular, for `bansPhase1 = 1, balanceBans = 1,
balanceBansPlayer = 1`, player 1 bans twice and player 2 once before `pick1`
begins, the turn coming back to player 1 after player 2's single ban. -/
theorem claim1_ban1_transition :
    (∀ (cfg : DraftConfig) (s : DraftState), s.phase = .ban1 →
      ((specNeed cfg 1 ≤ s.currentPhase1BanCount.player1 ∧
        specNeed cfg 2 ≤ s.currentPhase1BanCount.player2) →
        advanceDraftState cfg s = { s with phase := .pick1, currentPlayer := 1 }) ∧
      (¬ (specNeed cfg 1 ≤ s.currentPhase1BanCount.player1 ∧
          specNeed cfg 2 ≤ s.currentPhase1BanCount.player2) →
        advanceDraftState cfg s = { s with currentPlayer := specBan1Turn cfg s })) ∧
    (draftBan cfgC1 (some 1) (some initialDraftState) 10 = .ok c1s1 ∧
     c1s1.phase = .ban1 ∧ c1s1.currentPlayer = 2 ∧
     draftBan cfgC1 (some 2) (some c1s1) 11 = .ok c1s2 ∧
     c1s2.phase = .ban1 ∧ c1s2.currentPlayer = 1 ∧
     draftBan cfgC1 (some 1) (some c1s2) 12 = .ok c1s3 ∧
     c1s3.phase = .pick1 ∧ c1s3.currentPlayer = 1) := by
  constructor
  · intro cfg s h
    constructor
    · intro hd
      rw [advanceBan1_spec cfg s h, if_pos hd]
    · intro hd
      rw [advanceBan1_spec cfg s h, if_neg hd]
  · exact ⟨rfl, by decide, by decide, rfl, by decide, by decide, rfl, by decide, by decide⟩

/-- C1 witness: the general part applied to the fresh session under `cfgC1`,
whose hypotheses hold by computation. -/
theorem claim1_witness :
    advanceDraftState cfgC1 initialDraftState =
      { initialDraftState with
        currentPlayer := specBan1Turn cfgC1 initialDraftState } :=
  (claim1_ban1_transition.1 cfgC1 initialDraftState rfl).2 (by decide)

/-- C2: in phase `pick1` with quota 3: when both pick counts reach 3 the
session advances to `ban2` with current player 1; otherwise the turn is the
fixed 1,2,2,1,1,2 table entry at index `totalPicks`.  Successive picks from
empty counts assign turns 1,2,2,1,1,2 (shown on a concrete trace whose items
are arbitrary fresh ids). -/
theorem claim2_pick1_transition :
    (∀ (cfg : DraftConfig) (s : DraftState), s.phase = .pick1 →
      ((3 ≤ s.currentPick1Count.player1 ∧ 3 ≤ s.currentPick1Count.player2) →
        advanceDraftState cfg s = { s with phase := .ban2, currentPlayer := 1 }) ∧
      (¬ (3 ≤ s.currentPick1Count.player1 ∧ 3 ≤ s.currentPick1Count.player2) →
        s.currentPick1Count.player1 + s.currentPick1Count.player2 ≤ 5 →
        advanceDraftState cfg s =
          { s with currentPlayer := (specPick1Table
              (s.currentPick1Count.player1 + s.currentPick1Count.player2)) })) ∧
    (pick1Entry.currentPlayer = 1 ∧
     draftPick cfgStd (some 1) (some pick1Entry) 1 = .ok c2s1 ∧
     c2s1.phase = .pick1 ∧ c2s1.currentPlayer = 2 ∧
     draftPick cfgStd (some 2) (some c2s1) 2 = .ok c2s2 ∧
     c2s2.phase = .pick1 ∧ c2s2.currentPlayer = 2 ∧
     draftPick cfgStd (some 2) (some c2s2) 3 = .ok c2s3 ∧
     c2s3.phase = .pick1 ∧ c2s3.currentPlayer = 1 ∧
     draftPick cfgStd (some 1) (some c2s3) 4 = .ok c2s4 ∧
     c2s4.phase = .pick1 ∧ c2s4.currentPlayer = 1 ∧
     draftPick cfgStd (some 1) (some c2s4) 5 = .ok c2s5 ∧
     c2s5.phase = .pick1 ∧ c2s5.currentPlayer = 2 ∧
     draftPick cfgStd (some 2) (some c2s5) 6 = .ok c2s6 ∧
     c2s6.phase = .ban2 ∧ c2s6.currentPlayer = 1) := by
  constructor
  · intro cfg s h
    constructor
    · intro hd
      rw [advancePick1_spec cfg s h, if_pos hd]
    · intro hd hle
      rw [advancePick1_spec cfg s h, if_neg hd, if_pos hle]
  · refine ⟨by decide, rfl, by decide, by decide, rfl, by decide, by decide,
      rfl, by decide, by decide, rfl, by decide, by decide, rfl, by decide,
      by decide, rfl, by decide, by decide⟩

/-- C2 witness: the table part applied at the `pick1` entry state. -/
theorem claim2_witness :
    advanceDraftState cfgStd pick1Entry =
      { pick1Entry with currentPlayer := specPick1Table 0 } :=
  (claim2_pick1_transition.1 cfgStd pick1Entry rfl).2 (by decide) (by decide)

/-- C3: in phase `ban2`, the per-player need is `bansPhase2` for both players
(no balance allowance); when both are done the session advances to `pick2`
with current player 2, otherwise the same flip-then-single-skip logic as
`ban1` applies (with need `bansPhase2`). -/
theorem claim3_ban2_transition :
    ∀ (cfg : DraftConfig) (s : DraftState), s.phase = .ban2 →
      ((cfg.bansPhase2 ≤ s.currentPhase2BanCount.player1 ∧
        cfg.bansPhase2 ≤ s.currentPhase2BanCount.player2) →
        advanceDraftState cfg s = { s with phase := .pick2, currentPlayer := 2 }) ∧
      (¬ (cfg.bansPhase2 ≤ s.currentPhase2BanCount.player1 ∧
          cfg.bansPhase2 ≤ s.currentPhase2BanCount.player2) →
        advanceDraftState cfg s = { s with currentPlayer := specBan2Turn cfg s }) := by
  intro cfg s h
  constructor
  · intro hd
    rw [advanceBan2_spec cfg s h, if_pos hd]
  · intro hd
    rw [advanceBan2_spec cfg s h, if_neg hd]

/-- C3 witness: applied at a `ban2` entry state with zero counts. -/
theorem claim3_witness :
    advanceDraftState cfgStd ban2Entry =
      { ban2Entry with currentPlayer := specBan2Turn cfgStd ban2Entry } :=
  (claim3_ban2_transition cfgStd ban2Entry rfl).2 (by decide)

/-- C4: in phase `pick2` with quota 3: when both pick counts reach 3 the
phase becomes `complete`; otherwise the turn is the mirrored 2,1,1,2,2,1
table entry at index `totalPicks`.  Successive picks from empty counts
assign turns 2,1,1,2,2,1 and then the phase completes. -/
theorem claim4_pick2_transition :
    (∀ (cfg : DraftConfig) (s : DraftState), s.phase = .pick2 →
      ((3 ≤ s.currentPick2Count.player1 ∧ 3 ≤ s.currentPick2Count.player2) →
        advanceDraftState cfg s = { s with phase := .complete }) ∧
      (¬ (3 ≤ s.currentPick2Count.player1 ∧ 3 ≤ s.currentPick2Count.player2) →
        s.currentPick2Count.player1 + s.currentPick2Count.player2 ≤ 5 →
        advanceDraftState cfg s =
          { s with currentPlayer := (specPick2Table
              (s.currentPick2Count.player1 + s.currentPick2Count.player2)) })) ∧
    (pick2Entry.currentPlayer = 2 ∧
     draftPick cfgStd (some 2) (some pick2Entry) 1 = .ok c4s1 ∧
     c4s1.phase = .pick2 ∧ c4s1.currentPlayer = 1 ∧
     draftPick cfgStd (some 1) (some c4s1) 2 = .ok c4s2 ∧
     c4s2.phase = .pick2 ∧ c4s2.currentPlayer = 1 ∧
     draftPick cfgStd (some 1) (some c4s2) 3 = .ok c4s3 ∧
     c4s3.phase = .pick2 ∧ c4s3.currentPlayer = 2 ∧
     draftPick cfgStd (some 2) (some c4s3) 4 = .ok c4s4 ∧
     c4s4.phase = .pick2 ∧ c4s4.currentPlayer = 2 ∧
     draftPick cfgStd (some 2) (some c4s4) 5 = .ok c4s5 ∧
     c4s5.phase = .pick2 ∧ c4s5.currentPlayer = 1 ∧
     draftPick cfgStd (some 1) (some c4s5) 6 = .ok c4s6 ∧
     c4s6.phase = .complete) := by
  constructor
  · intro cfg s h
    constructor
    · intro hd
      rw [advancePick2_spec cfg s h, if_pos hd]
    · intro hd hle
      rw [advancePick2_spec cfg s h, if_neg hd, if_pos hle]
  · refine ⟨by decide, rfl, by decide, by decide, rfl, by decide, by decide,
      rfl, by decide, by decide, rfl, by decide, by decide, rfl, by decide,
      by decide, rfl, by decide⟩

/-- C4 witness: the table part applied at the `pick2` entry state. -/
theorem claim4_witness :
    advanceDraftState cfgStd pick2Entry =
      { pick2Entry with currentPlayer := specPick2Table 0 } :=
  (claim4_pick2_transition.1 cfgStd pick2Entry rfl).2 (by decide) (by decide)
/-- C5 (amended): with `bansPhase1 ≥ 1` and `bansPhase2 ≥ 1`, reachable ban
counters never exceed the per-player need; reachable pick counters never
exceed 3 under any configuration; each counter is incremented exactly for the
acting player (the current player), only during its own phase, and the
increment touches only that player's component. -/
theorem claim5_counter_discipline :
    (∀ (cfg : DraftConfig) (s : DraftState),
      1 ≤ cfg.bansPhase1 → 1 ≤ cfg.bansPhase2 → Reaches cfg s →
      s.currentPhase1BanCount.player1 ≤ specNeed cfg 1 ∧
      s.currentPhase1BanCount.player2 ≤ specNeed cfg 2 ∧
      s.currentPhase2BanCount.player1 ≤ cfg.bansPhase2 ∧
      s.currentPhase2BanCount.player2 ≤ cfg.bansPhase2) ∧
    (∀ (cfg : DraftConfig) (s : DraftState), Reaches cfg s →
      s.currentPick1Count.player1 ≤ 3 ∧ s.currentPick1Count.player2 ≤ 3 ∧
      s.currentPick2Count.player1 ≤ 3 ∧ s.currentPick2Count.player2 ≤ 3) ∧
    (∀ (cfg : DraftConfig) (p i : Nat) (s s' : DraftState),
      draftBan cfg (some p) (some s) i = .ok s' →
      s.currentPlayer = p ∧
      (s.phase = .ban1 →
        s'.currentPhase1BanCount = s.currentPhase1BanCount.inc p ∧
        s'.currentPhase2BanCount = s.currentPhase2BanCount) ∧
      (s.phase = .ban2 →
        s'.currentPhase2BanCount = s.currentPhase2BanCount.inc p ∧
        s'.currentPhase1BanCount = s.currentPhase1BanCount) ∧
      s'.currentPick1Count = s.currentPick1Count ∧
      s'.currentPick2Count = s.currentPick2Count) ∧
    (∀ (cfg : DraftConfig) (p i : Nat) (s s' : DraftState),
      draftPick cfg (some p) (some s) i = .ok s' →
      s.currentPlayer = p ∧
      (s.phase = .pick1 →
        s'.currentPick1Count = s.currentPick1Count.inc p ∧
        s'.currentPick2Count = s.currentPick2Count) ∧
      (s.phase = .pick2 →
        s'.currentPick2Count = s.currentPick2Count.inc p ∧
        s'.currentPick1Count = s.currentPick1Count) ∧
      s'.currentPhase1BanCount = s.currentPhase1BanCount ∧
      s'.currentPhase2BanCount = s.currentPhase2BanCount) ∧
    (∀ (c : PlayerPair),
      c.inc 1 = ⟨c.player1 + 1, c.player2⟩ ∧ c.inc 2 = ⟨c.player1, c.player2 + 1⟩) := by
  refine ⟨?_, ?_, ?_, ?_, ?_⟩
  · intro cfg s h1 h2 hr
    exact invBan_bounds cfg s (reaches_invBan cfg h1 h2 s hr)
  · intro cfg s hr
    exact invPick_bounds s (reaches_invPick cfg s hr)
  · intro cfg p i s s' h
    refine ⟨(draftBan_ok cfg p i s s' h).1, (draftBan_counters cfg p i s s' h).1,
      (draftBan_counters cfg p i s s' h).2, ?_, ?_⟩
    · exact (draftBan_frame cfg p i s s' h).2.2.2.1
    · exact (draftBan_frame cfg p i s s' h).2.2.2.2.1
  · intro cfg p i s s' h
    refine ⟨(draftPick_ok cfg p i s s' h).1, (draftPick_counters cfg p i s s' h).1,
      (draftPick_counters cfg p i s s' h).2, ?_, ?_⟩
    · exact (draftPick_frame cfg p i s s' h).2.1
    · exact (draftPick_frame cfg p i s s' h).2.2.1
  · intro c
    constructor <;> simp [PlayerPair.inc]

/-- C5 counterexample: under the admissible configuration with
`bansPhase1 = 0` and `balanceBans = 0`, the very first ban is accepted and
pushes player 1's phase-1 ban counter to 1, strictly above that player's
quota `bansPhase1 + balanceBans = 0` - so the engine does not enforce the
quota bound for zero-ban configurations. -/
theorem claim5_counterexample :
    Reaches cfgZero c5s1 ∧ cfgZero.balanceBansPlayer = 1 ∧
    cfgZero.bansPhase1 + cfgZero.balanceBans < c5s1.currentPhase1BanCount.player1 :=
  ⟨Reaches.ban 1 7 initialDraftState c5s1 Reaches.start rfl, rfl, by decide⟩

/-- C5 witness: the reachable-bounds parts applied to the fresh session. -/
theorem claim5_witness :
    (initialDraftState.currentPhase1BanCount.player1 ≤ specNeed cfgStd 1 ∧
     initialDraftState.currentPhase1BanCount.player2 ≤ specNeed cfgStd 2 ∧
     initialDraftState.currentPhase2BanCount.player1 ≤ cfgStd.bansPhase2 ∧
     initialDraftState.currentPhase2BanCount.player2 ≤ cfgStd.bansPhase2) ∧
    (initialDraftState.currentPick1Count.player1 ≤ 3 ∧
     initialDraftState.currentPick1Count.player2 ≤ 3 ∧
     initialDraftState.currentPick2Count.player1 ≤ 3 ∧
     initialDraftState.currentPick2Count.player2 ≤ 3) :=
  ⟨claim5_counter_discipline.1 cfgStd initialDraftState (by decide) (by decide)
      Reaches.start,
   claim5_counter_discipline.2.1 cfgStd initialDraftState Reaches.start⟩

/-- C6 (amended): in every reachable session neither the bans sequence nor
the picks sequence contains the same item id twice.  (The claim's further
part, that the two sequences never share an id, is false: a phase-2 ban of
an item already picked in phase 1 is accepted, see the counterexample.) -/
theorem claim6_no_duplicate_ids :
    ∀ (cfg : DraftConfig) (s : DraftState), Reaches cfg s →
      (banIds s).Nodup ∧ (pickIds s).Nodup :=
  fun cfg s h => reaches_invIds cfg s h

/-- C6 counterexample: a reachable session in which item 1 occurs both in
the picks sequence (picked during `pick1`) and in the bans sequence (banned
during `ban2`) - the ban handler checks only `bans`, not `picks`. -/
theorem claim6_counterexample :
    Reaches cfgStd c6s9 ∧ 1 ∈ banIds c6s9 ∧ 1 ∈ pickIds c6s9 :=
  ⟨c6s9_reachable, by decide, by decide⟩

/-- C6 witness: the no-duplicates theorem applied to the final state of the
concrete full draft. -/
theorem claim6_witness : (banIds c6s9).Nodup ∧ (pickIds c6s9).Nodup :=
  claim6_no_duplicate_ids cfgStd c6s9 c6s9_reachable

/-- C7: every successful ban or pick leaves the phase unchanged or moves it
to the immediate successor in the order ban1, pick1, ban2, pick2, complete. -/
theorem claim7_phase_forward :
    (∀ (cfg : DraftConfig) (pn : Option Nat) (s : DraftState) (i : Nat)
        (s' : DraftState), draftBan cfg pn (some s) i = .ok s' →
      s'.phase = s.phase ∨ phaseIdx s'.phase = phaseIdx s.phase + 1) ∧
    (∀ (cfg : DraftConfig) (pn : Option Nat) (s : DraftState) (i : Nat)
        (s' : DraftState), draftPick cfg pn (some s) i = .ok s' →
      s'.phase = s.phase ∨ phaseIdx s'.phase = phaseIdx s.phase + 1) := by
  constructor
  · intro cfg pn s i s' h
    cases pn with
    | none => simp [draftBan] at h
    | some p =>
      obtain ⟨hcp, hph, hchar, rfl⟩ := draftBan_ok cfg p i s s' h
      by_cases hb1 : s.phase = .ban1 <;> [rw [if_pos hb1]; rw [if_neg hb1]] <;>
        exact advance_phase_step cfg _
  · intro cfg pn s i s' h
    cases pn with
    | none => simp [draftPick] at h
    | some p =>
      obtain ⟨hcp, hph, hcb, hcpk, rfl⟩ := draftPick_ok cfg p i s s' h
      by_cases hf : s.phase = .pick1 <;> by_cases hp1 : p = 1
      · rw [if_pos hf, if_pos hp1]
        exact advance_phase_step cfg _
      · rw [if_pos hf, if_neg hp1]
        exact advance_phase_step cfg _
      · rw [if_neg hf, if_pos hp1]
        exact advance_phase_step cfg _
      · rw [if_neg hf, if_neg hp1]
        exact advance_phase_step cfg _

/-- C7 witness: the ban part applied to the first ban of the C1 trace. -/
theorem claim7_witness :
    c1s1.phase = initialDraftState.phase ∨
    phaseIdx c1s1.phase = phaseIdx initialDraftState.phase + 1 :=
  claim7_phase_forward.1 cfgC1 (some 1) initialDraftState 10 c1s1 rfl
/-- C8: the ban validation checks, in source order, each failing with its
own error: `NotAPlayer` when the actor is not seated (also when the seat
lookup is run on an unseated id), `NoActiveSession` when no session exists
(in particular right after `resetDraft`), `NotYourTurn` when it is not the
actor's turn, `WrongPhaseKind` when the phase is not `ban1`/`ban2` (in
particular any ban or pick during `complete`), `ItemAlreadyBanned` when the
item is already banned; and when no check fails the ban succeeds. -/
theorem claim8_ban_validation :
    (∀ (cfg : DraftConfig) (st : Option DraftState) (i : Nat),
      draftBan cfg none st i = .error .NotAPlayer) ∧
    (∀ (cfg : DraftConfig) (r : DraftRoom) (d : Nat) (st : Option DraftState)
        (i : Nat), r.player1 ≠ some d → r.player2 ≠ some d →
      draftBan cfg (getPlayerNumber r d) st i = .error .NotAPlayer) ∧
    (∀ (cfg : DraftConfig) (p i : Nat),
      draftBan cfg (some p) none i = .error .NoActiveSession) ∧
    (∀ (cfg : DraftConfig) (p i : Nat),
      draftBan cfg (some p) resetDraft i = .error .NoActiveSession) ∧
    (∀ (cfg : DraftConfig) (p i : Nat) (s : DraftState), s.currentPlayer ≠ p →
      draftBan cfg (some p) (some s) i = .error .NotYourTurn) ∧
    (∀ (cfg : DraftConfig) (p i : Nat) (s : DraftState), s.currentPlayer = p →
      s.phase ≠ .ban1 → s.phase ≠ .ban2 →
      draftBan cfg (some p) (some s) i = .error .WrongPhaseKind) ∧
    (∀ (cfg : DraftConfig) (p i : Nat) (s : DraftState), s.currentPlayer = p →
      s.phase = .complete →
      draftBan cfg (some p) (some s) i = .error .WrongPhaseKind ∧
      draftPick cfg (some p) (some s) i = .error .WrongPhaseKind) ∧
    (∀ (cfg : DraftConfig) (p i : Nat) (s : DraftState), s.currentPlayer = p →
      (s.phase = .ban1 ∨ s.phase = .ban2) → bansHasChar s.bans i = true →
      draftBan cfg (some p) (some s) i = .error .ItemAlreadyBanned) ∧
    (∀ (cfg : DraftConfig) (p i : Nat) (s : DraftState), s.currentPlayer = p →
      (s.phase = .ban1 ∨ s.phase = .ban2) → bansHasChar s.bans i = false →
      ∃ s', draftBan cfg (some p) (some s) i = .ok s') := by
  refine ⟨?_, ?_, ?_, ?_, ?_, ?_, ?_, ?_, ?_⟩
  · intro cfg st i
    rfl
  · intro cfg r d st i h1 h2
    simp only [getPlayerNumber, if_neg h1, if_neg h2]
    rfl
  · intro cfg p i
    rfl
  · intro cfg p i
    rfl
  · intro cfg p i s hneq
    simp [draftBan, hneq]
  · intro cfg p i s hcp h1 h2
    simp [draftBan, hcp, h1, h2]
  · intro cfg p i s hcp hph
    constructor
    · simp [draftBan, hcp, hph]
    · simp [draftPick, hcp, hph]
  · intro cfg p i s hcp hph hchar
    have h1 : ¬ (s.currentPlayer ≠ p) := by simp [hcp]
    have h2 : ¬ ¬ (s.phase = .ban1 ∨ s.phase = .ban2) := not_not.mpr hph
    simp only [draftBan]
    rw [if_neg h1, if_neg h2, if_pos hchar]
  · intro cfg p i s hcp hph hchar
    have h1 : ¬ (s.currentPlayer ≠ p) := by simp [hcp]
    have h2 : ¬ ¬ (s.phase = .ban1 ∨ s.phase = .ban2) := not_not.mpr hph
    have h3 : ¬ (bansHasChar s.bans i = true) := by simp [hchar]
    refine ⟨advanceDraftState cfg
      (if s.phase = .ban1 then
        { s with bans := s.bans ++ [(⟨i, .phase1, p⟩ : BanRecord)],
                 currentPhase1BanCount := s.currentPhase1BanCount.inc p }
       else
        { s with bans := s.bans ++ [(⟨i, .phase2, p⟩ : BanRecord)],
                 currentPhase2BanCount := s.currentPhase2BanCount.inc p }), ?_⟩
    simp only [draftBan]
    rw [if_neg h1, if_neg h2, if_neg h3]
    by_cases hb : s.phase = .ban1 <;> simp [hb]

/-- C8 witness: the `NotYourTurn` check applied to a fresh session where
player 2 tries to act first. -/
theorem claim8_witness :
    draftBan cfgStd (some 2) (some initialDraftState) 5 = .error .NotYourTurn :=
  claim8_ban_validation.2.2.2.2.1 cfgStd 2 5 initialDraftState (by decide)

/-- C9: a ban or pick attempt that fails validation leaves the session
exactly as it was. -/
theorem claim9_errors_leave_session :
    (∀ (cfg : DraftConfig) (pn : Option Nat) (st : Option DraftState) (i : Nat)
        (e : DraftError), draftBan cfg pn st i = .error e →
      applyBan cfg pn i st = st) ∧
    (∀ (cfg : DraftConfig) (pn : Option Nat) (st : Option DraftState) (i : Nat)
        (e : DraftError), draftPick cfg pn st i = .error e →
      applyPick cfg pn i st = st) := by
  constructor
  · intro cfg pn st i e h
    simp [applyBan, h]
  · intro cfg pn st i e h
    simp [applyPick, h]

/-- C9 witness: an out-of-turn ban attempt leaves the fresh session intact. -/
theorem claim9_witness :
    applyBan cfgStd (some 2) 5 (some initialDraftState) = some initialDraftState :=
  claim9_errors_leave_session.1 cfgStd (some 2) (some initialDraftState) 5
    .NotYourTurn rfl

/-- C10: a successful ban changes no pick-side state and a successful pick
changes no ban-side state; `balanceBansUsed` stays 0 forever. -/
theorem claim10_frame_conditions :
    (∀ (cfg : DraftConfig) (pn : Option Nat) (s : DraftState) (i : Nat)
        (s' : DraftState), draftBan cfg pn (some s) i = .ok s' →
      s'.picks = s.picks ∧ s'.player1Picks = s.player1Picks ∧
      s'.player2Picks = s.player2Picks ∧
      s'.currentPick1Count = s.currentPick1Count ∧
      s'.currentPick2Count = s.currentPick2Count ∧
      s'.balanceBansUsed = s.balanceBansUsed) ∧
    (∀ (cfg : DraftConfig) (pn : Option Nat) (s : DraftState) (i : Nat)
        (s' : DraftState), draftPick cfg pn (some s) i = .ok s' →
      s'.bans = s.bans ∧
      s'.currentPhase1BanCount = s.currentPhase1BanCount ∧
      s'.currentPhase2BanCount = s.currentPhase2BanCount ∧
      s'.balanceBansUsed = s.balanceBansUsed) ∧
    (∀ (cfg : DraftConfig) (s : DraftState), Reaches cfg s →
      s.balanceBansUsed = 0 ∧ initialDraftState.balanceBansUsed = 0) := by
  refine ⟨?_, ?_, ?_⟩
  · intro cfg pn s i s' h
    cases pn with
    | none => simp [draftBan] at h
    | some p => exact draftBan_frame cfg p i s s' h
  · intro cfg pn s i s' h
    cases pn with
    | none => simp [draftPick] at h
    | some p => exact draftPick_frame cfg p i s s' h
  · intro cfg s hr
    exact ⟨reaches_balanceBansUsed cfg s hr, rfl⟩

/-- C10 witness: the ban frame applied to the first ban of the C1 trace. -/
theorem claim10_witness :
    c1s1.picks = initialDraftState.picks ∧
    c1s1.player1Picks = initialDraftState.player1Picks ∧
    c1s1.player2Picks = initialDraftState.player2Picks ∧
    c1s1.currentPick1Count = initialDraftState.currentPick1Count ∧
    c1s1.currentPick2Count = initialDraftState.currentPick2Count ∧
    c1s1.balanceBansUsed = initialDraftState.balanceBansUsed :=
  claim10_frame_conditions.1 cfgC1 (some 1) initialDraftState 10 c1s1 rfl
end Draft
